import Mathlib

/-!
Verification of the InnerSync sync-orchestration engine.

This file contains a shallow embedding of the two modules that carry the
orchestration logic of the repository:

* the upload adapter `uploadTimetable` (apiClient module), including token
  resolution, the login fallback and the recursive re-authentication retry
  on HTTP 401;
* the `SyncService` state machine (innersync-core/src/service.js):
  debounced scheduling, single-flight pipeline execution, pause/stop
  handling and the bounded history log.

Effectful JavaScript is modelled by explicit state passing: the token cache
file is an `Option String` argument threaded through the recursion, HTTP
traffic is a list of environment-provided responses consumed one per
request, and the async interleaving of the service is a small-step machine
(`step`) whose events are the callbacks of the source (trigger, watcher
event, debounce-timer fire, pipeline completion, stop/pause/resume).
JavaScript truthiness of strings (null/undefined or empty string is falsy)
is modelled by `truthyO` and `jsOr` on `Option String`.
-/

namespace InnerSync

/-- JavaScript truthiness for an optional string: `null`/`undefined` and the
empty string are falsy. -/
def truthyO : Option String → Bool
  | none => false
  | some s => !(s == "")

/-- JavaScript `a || b` on optional strings: yields `a` when it is truthy,
otherwise `b`. -/
def jsOr (a b : Option String) : Option String :=
  match a with
  | some s => if s = "" then b else some s
  | none => b

/-- Login configuration (`config.login`): email and password; the other
fields (device name, replace flag) do not influence control flow. -/
structure LoginCfg where
  email : Option String
  password : Option String
deriving DecidableEq

/-- What the login endpoint would do if called: return a (truthy) token,
return a response without a usable token (`data.token || null` is null), or
fail with a non-2xx HTTP status (which the adapter raises). -/
inductive LoginOutcome
  | token (t : String)
  | noToken
  | httpError (status : Nat)
deriving DecidableEq

/-- Parsed JSON body of an upload response: `payload.message` and
`payload.status` (the latter marks remote duplicate suppression when it is
the string "skipped"). `none` at the use sites stands for an absent field. -/
structure RespBody where
  message : Option String
  status : Option String
deriving DecidableEq

/-- One HTTP response to an upload POST: status code plus parsed body
(`none` models an empty or unparseable body). -/
structure HttpResp where
  status : Nat
  body : Option RespBody
deriving DecidableEq

/-- The three export file paths passed to the upload adapter
(`student_course`, `student_timetable`, `timetable`); a falsy entry makes
the adapter skip with reason "missing files". -/
structure Files where
  student_course : Option String
  student_timetable : Option String
  timetable : Option String
deriving DecidableEq

/-- Result shape of `uploadTimetable`: mirrors the object literals returned
by the source (`status`, `body.message`, `payloadHash`, `skipped`,
`message`, `reason`). The full response body and file buffers are
abstracted to the fields the service reads. -/
structure UploadResult where
  status : Option Nat
  bodyMessage : Option String
  payloadHash : Option String
  skipped : Bool
  message : Option String
  reason : Option String
deriving DecidableEq

/-- The skip result returned when no token can be resolved. -/
def noTokenResult : UploadResult :=
  { status := none, bodyMessage := none, payloadHash := none,
    skipped := true, message := none, reason := some "no token" }

/-- The skip result returned when a file path is missing. -/
def missingFilesResult : UploadResult :=
  { status := none, bodyMessage := none, payloadHash := none,
    skipped := true, message := none, reason := some "missing files" }

/-- `loginForToken`: returns `.ok none` when credentials are missing
(falsy email or password), raises on a non-ok HTTP response, and otherwise
yields the token of the environment's answer (`data.token || null`). -/
def loginForToken (cfg : LoginCfg) (env : LoginOutcome) : Except String (Option String) :=
  if truthyO cfg.email = false ∨ truthyO cfg.password = false then
    Except.ok none
  else
    match env with
    | LoginOutcome.token t => Except.ok (jsOr (some t) none)
    | LoginOutcome.noToken => Except.ok none
    | LoginOutcome.httpError n =>
        Except.error (String.append "Login failed with status " (toString n))

/-- The token resolution of `uploadTimetable`: explicit token, else cached
token (consulted only when a cache path is configured and its content is
truthy), else a login attempt. -/
def resolveToken (apiToken : Option String) (login : LoginCfg)
    (loginEnv : LoginOutcome) (cachePath : Bool) (cache : Option String) :
    Except String (Option String) :=
  match jsOr apiToken (if cachePath && truthyO cache then cache else none) with
  | some tok => Except.ok (some tok)
  | none => loginForToken login loginEnv

/-- Case dispatch on a token-resolution result (kept as a separate
function so that the main definition's recursion stays structural in the
response list alone). -/
def dispatchToken {α : Type} (tok : Except String (Option String))
    (onErr : String → α) (onNone : α) (onSome : String → α) : α :=
  match tok with
  | Except.error e => onErr e
  | Except.ok none => onNone
  | Except.ok (some t) => onSome t

/-- `uploadTimetable` from the apiClient module. Arguments beyond the
source's parameter object: `loginEnv` is the login endpoint's behaviour,
`cachePath` tells whether a `tokenCachePath` is configured, `cache` is the
current content of the token cache (the recursive retry passes `none`,
modelling `clearCachedToken`), `hash` stands for the sha256 over the file
contents, and `resps` is the list of responses the server gives to
successive upload POSTs (one consumed per request).

The value is `(outcome?, attempts)`: `attempts` counts upload POSTs that
received a response; the outcome is `none` when `resps` is exhausted while
the adapter still wants to issue another request. -/
def uploadTimetable (apiToken : Option String) (login : LoginCfg)
    (loginEnv : LoginOutcome) (cachePath : Bool) (cache : Option String)
    (files : Files) (hash : String) (resps : List HttpResp) :
    Option (Except String UploadResult) × Nat :=
  if truthyO files.student_course = false ∨ truthyO files.student_timetable = false ∨
      truthyO files.timetable = false then
    (some (Except.ok missingFilesResult), 0)
  else
    dispatchToken (resolveToken apiToken login loginEnv cachePath cache)
      (fun e => (some (Except.error e), 0))
      (some (Except.ok noTokenResult), 0)
      (fun _tok =>
        match resps with
        | [] => (none, 0)
        | r :: rest =>
          if r.status = 401 ∧ truthyO apiToken = false then
            -- token expired: the cache is cleared and the whole upload re-runs
            let sub := uploadTimetable none login loginEnv cachePath none files hash rest
            (sub.1, sub.2 + 1)
          else if ¬ (200 ≤ r.status ∧ r.status < 300) then
            (some (Except.error
              (String.append "Upload failed with status " (toString r.status))), 1)
          else
            let bodyMsg := r.body.bind RespBody.message
            let msg := jsOr bodyMsg none
            (some (Except.ok
              { status := some r.status, bodyMessage := bodyMsg,
                payloadHash := some hash,
                skipped := if r.body.bind RespBody.status = some "skipped" then true else false,
                message := msg, reason := msg }), 1))

/-- Export file paths that are all present. -/
def allFiles : Files :=
  { student_course := some "StudentCourse.txt",
    student_timetable := some "StudentTimetable.txt",
    timetable := some "Timetable.txt" }

/-- A bodyless 401 response. -/
def resp401 : HttpResp := { status := 401, body := none }

/-! The `SyncService` state machine (innersync-core/src/service.js). -/

/-- The service's `state` field: one of the strings used by the source. -/
inductive RunState
  | idle
  | syncing
  | error
  | stopped
deriving DecidableEq

/-- `lastResult` (the service keeps the upload's `response` body and the
`outputDir` as well; they are opaque to the orchestration logic and not
modelled). -/
structure RunResult where
  status : String
  payloadHash : Option String
  reason : Option String
  message : Option String
deriving DecidableEq

/-- One history entry as pushed by `runSync`. -/
structure HistoryEntry where
  timestamp : String
  status : String
  reason : String
  payloadHash : Option String
  skippedReason : Option String
  message : Option String
deriving DecidableEq

/-- `Number(config.historyLimit || DEFAULT_HISTORY_LIMIT)`: an absent or
zero (falsy) configured limit resolves to the default 50. -/
def resolveHistoryLimit (cfg : Option Nat) : Nat :=
  match cfg with
  | none => 50
  | some n => if n = 0 then 50 else n

/-- `pushHistory`: append the entry, then splice the excess off the front
when the length exceeds the limit. -/
def pushHistory (limit : Nat) (h : List HistoryEntry) (e : HistoryEntry) :
    List HistoryEntry :=
  let h2 := h ++ [e]
  if limit < h2.length then h2.drop (h2.length - limit) else h2

/-- The slice performed by `loadHistory` on a parsed array:
`parsed.slice(-limit)` keeps the last `limit` entries (for `limit = 0`,
JavaScript `slice(-0)` is `slice(0)`, the whole array). -/
def loadHistory (limit : Nat) (parsed : List HistoryEntry) : List HistoryEntry :=
  if limit = 0 then parsed else parsed.drop (parsed.length - limit)

/-- Mutable fields of a `SyncService` instance plus `currentReason`, the
local `reason` of an in-flight `runSync` invocation (needed to resume the
suspended run at its completion event). `timer` is `some d` when a debounce
timer armed with delay `d` is outstanding, and `watcherActive` stands for a
live chokidar watcher. -/
structure S where
  state : RunState
  running : Bool
  paused : Bool
  lastRun : Option String
  lastResult : Option RunResult
  history : List HistoryEntry
  watcherActive : Bool
  timer : Option Nat
  pendingReason : Option String
  currentReason : Option String
  watchFiles : List String
  historyLimit : Nat
  debounceMs : Nat
deriving DecidableEq

/-- Observable outputs of a step: `status` events, `history` events, and
an instrumentation marker for each pipeline execution that begins. -/
inductive Out
  | statusEmit
  | historyEmit
  | runStarted (reason : String)
deriving DecidableEq

/-- The synchronous head of `runSync`: set `running`, move to `syncing`,
broadcast status; the run then suspends awaiting export and upload. -/
def beginRun (s : S) (reason : String) : S × List Out :=
  ({ s with running := true, state := RunState.syncing,
            currentReason := some reason },
   [Out.statusEmit, Out.runStarted reason])

/-- `processQueue`: while a run is in flight (or the service is paused) the
timer re-arms itself for another debounce window; otherwise the pending
reason (with the `'change detected'` fallback for a falsy one) is taken and
a run begins. -/
def processQueue (s : S) : S × List Out :=
  if s.running = true ∨ s.paused = true then
    ({ s with timer := some s.debounceMs }, [])
  else
    let reason :=
      match s.pendingReason with
      | some r => if r = "" then "change detected" else r
      | none => "change detected"
    beginRun { s with pendingReason := none, timer := none } reason

/-- `scheduleRun`: ignored while paused; records the pending reason; an
immediate request clears any armed timer and processes the queue at once,
otherwise the debounce timer is (re)armed. -/
def scheduleRun (s : S) (reason : String) (immediate : Bool) : S × List Out :=
  if s.paused = true then (s, [])
  else
    let s1 : S := { s with pendingReason := some reason }
    if immediate then
      processQueue { s1 with timer := none }
    else
      ({ s1 with timer := some s.debounceMs }, [])

/-- `triggerSync`: a manual trigger is logged and dropped while paused,
otherwise it schedules an immediate run. -/
def triggerSync (s : S) (reason : String) : S × List Out :=
  if s.paused = true then (s, [])
  else scheduleRun s reason true

/-- JavaScript `text.split(' ')` on the character list: split at every
single space, keeping empty words (consecutive spaces yield empties). -/
def splitWords : List Char → List (List Char)
  | [] => [[]]
  | c :: cs =>
    if c = ' ' then [] :: splitWords cs
    else
      match splitWords cs with
      | [] => [[c]]
      | w :: ws => (c :: w) :: ws

/-- JavaScript `words.join(' ')` on character lists. -/
def joinSpaces : List (List Char) → List Char
  | [] => []
  | [w] => w
  | w :: ws => w ++ ' ' :: joinSpaces ws

/-- One word of `capitalizeReason`: `word ? word[0].toUpperCase() +
word.slice(1) : ''` — the first character uppercased, the rest kept, an
empty word left empty. -/
def capitalizeWord (word : List Char) : List Char :=
  match word with
  | [] => []
  | c :: rest => Char.toUpper c :: rest

/-- `capitalizeReason`: empty text stays empty; otherwise split on single
spaces, capitalize each word, and rejoin with spaces. -/
def capitalizeReason (text : String) : String :=
  if text = "" then ""
  else String.mk (joinSpaces ((splitWords text.toList).map capitalizeWord))

/-- Modelled from the spec sentence behind C10 for the refinement
comparison: the first character of each non-empty word uppercased, an
empty word kept. -/
def specTitleCaseWord (w : List Char) : List Char :=
  match w with
  | [] => []
  | c :: rest => Char.toUpper c :: rest

/-- The spec-worded title-casing of a whole reason string: split on single
spaces, uppercase each non-empty word's first character, rejoin with
spaces. -/
def specTitleCase (t : String) : String :=
  String.mk (joinSpaces ((splitWords t.toList).map specTitleCaseWord))

/-- The continuation of `runSync` once export and upload have settled:
classify the outcome, record `lastRun`/`lastResult`, move to `idle` or
`error`, push a history entry (with the capitalized reason, see
`capitalizeReason`), and in the `finally` clear `running` and broadcast. -/
def finishRun (s : S) (reason ts : String)
    (outcome : Except String UploadResult) : S × List Out :=
  match outcome with
  | Except.ok u =>
    let resultStatus := if u.skipped then "skipped" else "success"
    let uploadMessage := jsOr u.message (jsOr u.reason u.bodyMessage)
    let entry : HistoryEntry :=
      { timestamp := ts, status := resultStatus,
        reason := capitalizeReason reason,
        payloadHash := u.payloadHash,
        skippedReason := if u.skipped then uploadMessage else none,
        message := uploadMessage }
    ({ s with lastRun := some ts,
              lastResult := some { status := resultStatus,
                                   payloadHash := u.payloadHash,
                                   reason := jsOr u.reason (some reason),
                                   message := uploadMessage },
              state := RunState.idle,
              history := pushHistory s.historyLimit s.history entry,
              running := false, currentReason := none },
     [Out.historyEmit, Out.statusEmit])
  | Except.error msg =>
    let entry : HistoryEntry :=
      { timestamp := ts, status := "error",
        reason := capitalizeReason reason,
        payloadHash := none, skippedReason := none, message := some msg }
    ({ s with lastRun := some ts,
              lastResult := some { status := "error", payloadHash := none,
                                   reason := none, message := some msg },
              state := RunState.error,
              history := pushHistory s.historyLimit s.history entry,
              running := false, currentReason := none },
     [Out.historyEmit, Out.statusEmit])

/-- A whole `runSync` call with no interleaving between its suspension
points: the synchronous head followed by the continuation. The `outcome`
argument is what the awaited export+upload reduce to — `Except.error`
models any exception thrown in the `try` block, caught by the `catch`. -/
def runSync (s : S) (reason ts : String)
    (outcome : Except String UploadResult) : S × List Out :=
  let p := beginRun s reason
  let q := finishRun p.1 reason ts outcome
  (q.1, p.2 ++ q.2)

/-- `stop`: close the watcher, clear a pending timer, set the state to
`stopped` and broadcast. Note it neither clears `running` nor cancels an
in-flight run. -/
def stop (s : S) : S × List Out :=
  ({ s with watcherActive := false, timer := none, state := RunState.stopped },
   [Out.statusEmit])

/-- `pause`: set the flag, close the watcher, broadcast. -/
def pause (s : S) : S × List Out :=
  ({ s with paused := true, watcherActive := false }, [Out.statusEmit])

/-- `resume`: no-op when not paused; otherwise clear the flag, re-create
the watcher (when watch files are configured) and broadcast. -/
def resume (s : S) : S × List Out :=
  if s.paused = false then (s, [])
  else
    ({ s with paused := false, watcherActive := s.watchFiles ≠ [] },
     [Out.statusEmit])

/-- Events of the single-threaded event loop: a manual trigger, a watcher
add/change callback (delivered only while the watcher is live), the
debounce timer firing (only when armed), the settlement of the in-flight
pipeline, and the control methods. -/
inductive Ev
  | trigger (reason : String)
  | fsEvent (reason : String)
  | timerFire
  | complete (ts : String) (outcome : Except String UploadResult)
  | stopEv
  | pauseEv
  | resumeEv

/-- One step of the event loop. -/
def step (s : S) (e : Ev) : S × List Out :=
  match e with
  | Ev.trigger r => triggerSync s r
  | Ev.fsEvent r => if s.watcherActive then scheduleRun s r false else (s, [])
  | Ev.timerFire => if s.timer.isSome then processQueue s else (s, [])
  | Ev.complete ts oc =>
    match s.currentReason with
    | some reason => finishRun s reason ts oc
    | none => (s, [])
  | Ev.stopEv => stop s
  | Ev.pauseEv => pause s
  | Ev.resumeEv => resume s

/-- The freshly constructed service (post-constructor field values, default
configuration). -/
def initState : S :=
  { state := RunState.idle, running := false, paused := false,
    lastRun := none, lastResult := none, history := [],
    watcherActive := false, timer := none, pendingReason := none,
    currentReason := none, watchFiles := ["Timetable.tfx"],
    historyLimit := 50, debounceMs := 2000 }

/-- A service with a pipeline execution in flight (run started from
`initState` by a manual trigger, timer re-armed by a later watcher event
firing into `processQueue`). -/
def runningState : S :=
  { initState with running := true, state := RunState.syncing,
                   currentReason := some "manual trigger",
                   timer := some 2000 }

/-- A paused service (fresh service after `pause`). -/
def pausedState : S := { initState with paused := true, watcherActive := false }

/-- A successful upload result as the apiClient returns it. -/
def okUpload : UploadResult :=
  { status := some 200, bodyMessage := none, payloadHash := some "h0",
    skipped := false, message := none, reason := none }

/-- A sequence of non-immediate `scheduleRun` calls, as delivered by the
watcher within one debounce window. -/
def applySchedules (s : S) (reasons : List String) : S × List Out :=
  match reasons with
  | [] => (s, [])
  | r :: rest =>
    let p := scheduleRun s r false
    let q := applySchedules p.1 rest
    (q.1, p.2 ++ q.2)

/-- Trigger calls of either kind, for the pause claim: a manual
`triggerSync` or a direct `scheduleRun`. -/
inductive TrigEv
  | manual (r : String)
  | sched (r : String) (immediate : Bool)

/-- Apply a sequence of trigger calls. -/
def applyTriggers (s : S) (evs : List TrigEv) : S × List Out :=
  match evs with
  | [] => (s, [])
  | t :: rest =>
    let p :=
      match t with
      | TrigEv.manual r => triggerSync s r
      | TrigEv.sched r i => scheduleRun s r i
    let q := applyTriggers p.1 rest
    (q.1, p.2 ++ q.2)

/-- C1: the claim says a second authorization failure is a hard error with
no further retries. On the code, with no explicit token, a cached token,
working login credentials and a server that answers 401 to every upload
POST, the adapter clears the cache and re-runs the whole upload after
EVERY 401: after two 401 responses the outcome is still pending (a third
request is issued, consuming a third response), not a hard error — the
recursion is unbounded while login keeps yielding tokens, contradicting
the code's own "retry once" comment. -/
theorem upload_retry_after_second_401 :
    uploadTimetable none { email := some "user", password := some "pw" }
      (LoginOutcome.token "fresh-token") true (some "cached-token") allFiles "h0"
      [resp401, resp401] = (none, 2) ∧
    uploadTimetable none { email := some "user", password := some "pw" }
      (LoginOutcome.token "fresh-token") true (some "cached-token") allFiles "h0"
      [resp401, resp401, resp401] = (none, 3) := by
  exact ⟨rfl, rfl⟩

/-- Unfolding equation for `uploadTimetable` (the automatic unfold theorem
is not generated for this recursion shape). -/
theorem uploadTimetable_unfold (apiToken : Option String) (login : LoginCfg)
    (loginEnv : LoginOutcome) (cachePath : Bool) (cache : Option String)
    (files : Files) (hash : String) (resps : List HttpResp) :
    uploadTimetable apiToken login loginEnv cachePath cache files hash resps =
      if truthyO files.student_course = false ∨
          truthyO files.student_timetable = false ∨
          truthyO files.timetable = false then
        (some (Except.ok missingFilesResult), 0)
      else
        dispatchToken (resolveToken apiToken login loginEnv cachePath cache)
          (fun e => (some (Except.error e), 0))
          (some (Except.ok noTokenResult), 0)
          (fun _tok =>
            match resps with
            | [] => (none, 0)
            | r :: rest =>
              if r.status = 401 ∧ truthyO apiToken = false then
                let sub := uploadTimetable none login loginEnv cachePath none
                  files hash rest
                (sub.1, sub.2 + 1)
              else if ¬ (200 ≤ r.status ∧ r.status < 300) then
                (some (Except.error
                  (String.append "Upload failed with status "
                    (toString r.status))), 1)
              else
                let bodyMsg := r.body.bind RespBody.message
                let msg := jsOr bodyMsg none
                (some (Except.ok
                  { status := some r.status, bodyMessage := bodyMsg,
                    payloadHash := some hash,
                    skipped := if r.body.bind RespBody.status = some "skipped"
                      then true else false,
                    message := msg, reason := msg }), 1)) := by
  cases resps with
  | nil => rfl
  | cons r rest => rfl

/-- C3: after either mutation of the history list — loading it from
storage or pushing a run outcome — its length is bounded by the resolved
history limit, and the surviving entries are a suffix of the input (so the
evicted ones are exactly the oldest, at the front). -/
theorem history_bounded_fifo (cfg : Option Nat) (h : List HistoryEntry)
    (e : HistoryEntry) (parsed : List HistoryEntry) :
    (pushHistory (resolveHistoryLimit cfg) h e).length ≤ resolveHistoryLimit cfg ∧
    List.IsSuffix (pushHistory (resolveHistoryLimit cfg) h e) (h ++ [e]) ∧
    (loadHistory (resolveHistoryLimit cfg) parsed).length ≤ resolveHistoryLimit cfg ∧
    List.IsSuffix (loadHistory (resolveHistoryLimit cfg) parsed) parsed := by
  have hlim : 1 ≤ resolveHistoryLimit cfg := by
    cases cfg with
    | none => simp [resolveHistoryLimit]
    | some n =>
      by_cases hn : n = 0
      · simp [resolveHistoryLimit, hn]
      · simp only [resolveHistoryLimit, if_neg hn]
        omega
  refine ⟨?_, ?_, ?_, ?_⟩
  · simp only [pushHistory]
    split
    · rw [List.length_drop]
      omega
    · next hle =>
      omega
  · simp only [pushHistory]
    split
    · exact List.drop_suffix _ _
    · exact List.suffix_refl _
  · simp only [loadHistory]
    split
    · omega
    · rw [List.length_drop]
      omega
  · simp only [loadHistory]
    split
    · exact List.suffix_refl _
    · exact List.drop_suffix _ _

/-- C4: every `runSync` settles — whatever the export/upload outcome, the
final state is `idle` for a resolved (success or skipped) pipeline and
`error` for a thrown one, `running` is cleared, exactly one history entry
is pushed, and a status broadcast is emitted; the catch-all structure of
the source is reflected in the model's totality (no outcome escapes). -/
theorem runSync_always_settles (s : S) (reason ts : String)
    (oc : Except String UploadResult) :
    ((runSync s reason ts oc).1.state =
      match oc with
      | Except.ok _ => RunState.idle
      | Except.error _ => RunState.error) ∧
    (runSync s reason ts oc).1.running = false ∧
    (∃ e, (runSync s reason ts oc).1.history =
      pushHistory s.historyLimit s.history e) ∧
    Out.statusEmit ∈ (runSync s reason ts oc).2 := by
  cases oc with
  | ok u =>
    refine ⟨rfl, rfl, ⟨_, rfl⟩, ?_⟩
    simp [runSync, beginRun, finishRun]
  | error m =>
    refine ⟨rfl, rfl, ⟨_, rfl⟩, ?_⟩
    simp [runSync, beginRun, finishRun]

/-- C10: the reason stored in the history entry of every completed run is
the title-cased transformation of the trigger reason (which coincides with
the spec's wording `specTitleCase`, e.g. "manual trigger" becomes
"Manual Trigger"), while `lastResult.reason` is left untransformed (the
upload's own reason when truthy, otherwise the raw trigger reason; absent
for a thrown run). -/
theorem history_reason_titlecased :
    (∀ t, capitalizeReason t = specTitleCase t) ∧
    capitalizeReason "manual trigger" = "Manual Trigger" ∧
    (∀ (s : S) (reason ts : String) (oc : Except String UploadResult),
      ∃ e lr,
        (runSync s reason ts oc).1.history =
          pushHistory s.historyLimit s.history e ∧
        e.reason = capitalizeReason reason ∧
        (runSync s reason ts oc).1.lastResult = some lr ∧
        lr.reason =
          (match oc with
           | Except.ok u => jsOr u.reason (some reason)
           | Except.error _ => none)) := by
  refine ⟨?_, by decide, ?_⟩
  · intro t
    by_cases ht : t = ""
    · subst ht
      decide
    · have hw : capitalizeWord = specTitleCaseWord := by
        funext w
        cases w with
        | nil => rfl
        | cons c rest => rfl
      rw [capitalizeReason, if_neg ht, specTitleCase, hw]
  · intro s reason ts oc
    cases oc with
    | ok u => exact ⟨_, _, rfl, rfl, rfl, rfl⟩
    | error m => exact ⟨_, _, rfl, rfl, rfl, rfl⟩

/-- Helper for the debounce claims: a window of non-immediate triggers
leaves the last reason pending, the timer armed, and produces no output. -/
theorem applySchedules_coalesce (rs : List String) (r : String) :
    ∀ s : S, s.paused = false →
      applySchedules s (rs ++ [r]) =
        ({ s with pendingReason := some r, timer := some s.debounceMs }, []) := by
  induction rs with
  | nil =>
    intro s hp
    simp [applySchedules, scheduleRun, hp]
  | cons a rest ih =>
    intro s hp
    have h1 : scheduleRun s a false =
        ({ s with pendingReason := some a, timer := some s.debounceMs }, []) := by
      simp [scheduleRun, hp]
    simp only [List.cons_append, applySchedules, h1, List.append_eq]
    rw [ih { s with pendingReason := some a, timer := some s.debounceMs } hp]
    rfl

/-- C2 (amended): any window of non-immediate `scheduleRun` calls, all
arriving before the timer fires, yields no pipeline execution during the
window and exactly one when the timer fires, whose reason is the last
(nonempty) trigger reason of the window. -/
theorem debounce_coalesces_to_last_reason (s : S) (rs : List String)
    (r : String) (hp : s.paused = false) (hr : s.running = false)
    (hne : r ≠ "") :
    (applySchedules s (rs ++ [r])).2 = [] ∧
    (step (applySchedules s (rs ++ [r])).1 Ev.timerFire).2 =
      [Out.statusEmit, Out.runStarted r] := by
  rw [applySchedules_coalesce rs r s hp]
  refine ⟨rfl, ?_⟩
  simp [step, processQueue, beginRun, hp, hr, hne]

/-- Witness for C2's theorem at a concrete window of two watcher events. -/
theorem debounce_coalesces_witness :
    (applySchedules initState
      (["file changed: a"] ++ ["file changed: b"])).2 = [] ∧
    (step (applySchedules initState
        (["file changed: a"] ++ ["file changed: b"])).1 Ev.timerFire).2 =
      [Out.statusEmit, Out.runStarted "file changed: b"] :=
  debounce_coalesces_to_last_reason initState ["file changed: a"]
    "file changed: b" rfl rfl (by decide)

/-- C2 (counterexample to the claim as stated): a window consisting of one
non-immediate trigger whose reason is the empty string runs with the
fallback reason "change detected", not with the last trigger's reason. -/
theorem debounce_empty_reason_cex :
    (step (scheduleRun initState "" false).1 Ev.timerFire).2 =
      [Out.statusEmit, Out.runStarted "change detected"] ∧
    ¬ ("change detected" = "") := by
  exact ⟨rfl, by decide⟩

/-- C5: while a run is in flight no event of the loop begins another
pipeline execution, and in particular a debounce callback firing then
merely re-arms the timer for one more full window, leaving the pending
reason (and every other field) untouched. -/
theorem single_flight (s : S) (h : s.running = true) :
    (∀ e r, Out.runStarted r ∉ (step s e).2) ∧
    (s.timer.isSome = true →
      step s Ev.timerFire = ({ s with timer := some s.debounceMs }, [])) := by
  constructor
  · intro e r
    cases e with
    | trigger r2 =>
      cases hp : s.paused with
      | true => simp [step, triggerSync, hp]
      | false => simp [step, triggerSync, scheduleRun, processQueue, hp, h]
    | fsEvent r2 =>
      cases hw : s.watcherActive with
      | false => simp [step, hw]
      | true =>
        cases hp : s.paused with
        | true => simp [step, scheduleRun, hw, hp]
        | false => simp [step, scheduleRun, hw, hp]
    | timerFire =>
      cases ht : s.timer with
      | none => simp [step, ht]
      | some d => simp [step, ht, processQueue, h]
    | complete ts oc =>
      cases hcr : s.currentReason with
      | none => simp [step, hcr]
      | some cr => cases oc <;> simp [step, hcr, finishRun]
    | stopEv => simp [step, stop]
    | pauseEv => simp [step, pause]
    | resumeEv =>
      cases hp : s.paused with
      | false => simp [step, resume, hp]
      | true => simp [step, resume, hp]
  · intro ht
    simp [step, ht, processQueue, h]

/-- Witness for C5 at a concrete in-flight state and the timer-fire
event. -/
theorem single_flight_witness :
    Out.runStarted "file changed: a" ∉ (step runningState Ev.timerFire).2 ∧
    step runningState Ev.timerFire =
      ({ runningState with timer := some runningState.debounceMs }, []) := by
  have h := single_flight runningState rfl
  exact ⟨h.1 Ev.timerFire "file changed: a", h.2 rfl⟩

/-- C6 (counterexample to the claim as stated): start a run from the fresh
service with a manual trigger, then call `stop` while it is syncing — the
state is already `stopped` before the run completes, and once the run
completes the state is `idle`, not `stopped`; so the state does not become
`stopped` only after completion. -/
theorem stop_during_sync_cex :
    ((step (step initState (Ev.trigger "manual trigger")).1 Ev.stopEv).1.state =
      RunState.stopped) ∧
    ((step (step initState (Ev.trigger "manual trigger")).1 Ev.stopEv).1.running =
      true) ∧
    ((step (step (step initState (Ev.trigger "manual trigger")).1 Ev.stopEv).1
        (Ev.complete "2026-01-01T00:00:00" (Except.ok okUpload))).1.state =
      RunState.idle) := by
  exact ⟨rfl, rfl, rfl⟩

/-- C6 (amended): calling `stop` while a run is in flight cancels the
pending timer, closes the watcher, and sets the state to `stopped` at once
while the run keeps running; the in-flight run still completes normally —
`running` clears and the state is overwritten to `idle` or `error` — and
the watcher reports no further changes afterwards. -/
theorem stop_during_sync_behavior (s : S) (cr : String)
    (hrun : s.running = true) (hcr : s.currentReason = some cr) :
    (stop s).1.timer = none ∧
    (stop s).1.watcherActive = false ∧
    (stop s).1.state = RunState.stopped ∧
    (stop s).1.running = true ∧
    ∀ ts oc,
      (step (stop s).1 (Ev.complete ts oc)).1.running = false ∧
      ((step (stop s).1 (Ev.complete ts oc)).1.state = RunState.idle ∨
       (step (stop s).1 (Ev.complete ts oc)).1.state = RunState.error) ∧
      ∀ r2, step (step (stop s).1 (Ev.complete ts oc)).1 (Ev.fsEvent r2) =
        ((step (stop s).1 (Ev.complete ts oc)).1, []) := by
  refine ⟨rfl, rfl, rfl, hrun, ?_⟩
  intro ts oc
  have hs : step (stop s).1 (Ev.complete ts oc) = finishRun (stop s).1 cr ts oc := by
    simp [step, stop, hcr]
  rw [hs]
  cases oc with
  | ok u =>
    refine ⟨rfl, Or.inl rfl, ?_⟩
    intro r2
    simp [step, finishRun, stop]
  | error m =>
    refine ⟨rfl, Or.inr rfl, ?_⟩
    intro r2
    simp [step, finishRun, stop]

/-- Witness for C6's amended theorem at a concrete in-flight state. -/
theorem stop_during_sync_witness :
    (stop runningState).1.timer = none ∧
    (stop runningState).1.state = RunState.stopped ∧
    (step (stop runningState).1
      (Ev.complete "t0" (Except.ok okUpload))).1.running = false ∧
    ((step (stop runningState).1
        (Ev.complete "t0" (Except.ok okUpload))).1.state = RunState.idle ∨
     (step (stop runningState).1
        (Ev.complete "t0" (Except.ok okUpload))).1.state = RunState.error) := by
  have h := stop_during_sync_behavior runningState "manual trigger" rfl rfl
  exact ⟨h.1, h.2.2.1,
    (h.2.2.2.2 "t0" (Except.ok okUpload)).1,
    (h.2.2.2.2 "t0" (Except.ok okUpload)).2.1⟩

/-- C7: while the service is paused, any sequence of triggers of either
kind (manual `triggerSync` or `scheduleRun` of either flavour) leaves the
whole state — including `state`, `lastRun`, `lastResult`, `history`, the
pending reason and the timer — exactly as it was, and emits nothing. -/
theorem paused_triggers_noop (s : S) (hp : s.paused = true)
    (evs : List TrigEv) :
    applyTriggers s evs = (s, []) := by
  induction evs with
  | nil => rfl
  | cons t rest ih =>
    cases t with
    | manual r => simp [applyTriggers, triggerSync, hp, ih]
    | sched r i => simp [applyTriggers, scheduleRun, hp, ih]

/-- Witness for C7 at a concrete paused state and trigger sequence. -/
theorem paused_triggers_witness :
    applyTriggers pausedState
      [TrigEv.manual "manual trigger", TrigEv.sched "file changed: a" false,
       TrigEv.sched "go" true] = (pausedState, []) :=
  paused_triggers_noop pausedState rfl _

/-- C8: with no explicit token, no usable cached token and no usable login
credentials, the upload returns the skipped "no token" outcome without
issuing any request, and a run completing with that outcome ends with
`lastResult.status = "skipped"`, `lastResult.reason = "no token"`, state
back to `idle`, and exactly one skipped entry pushed onto the history. -/
theorem no_token_skip (login : LoginCfg) (loginEnv : LoginOutcome)
    (cachePath : Bool) (cache : Option String) (files : Files)
    (hash : String) (resps : List HttpResp)
    (hcred : truthyO login.email = false ∨ truthyO login.password = false)
    (hf1 : truthyO files.student_course = true)
    (hf2 : truthyO files.student_timetable = true)
    (hf3 : truthyO files.timetable = true)
    (hcache : (cachePath && truthyO cache) = false) :
    uploadTimetable none login loginEnv cachePath cache files hash resps =
      (some (Except.ok noTokenResult), 0) ∧
    ∀ (s : S) (reason ts : String),
      (runSync s reason ts (Except.ok noTokenResult)).1.lastResult =
        some { status := "skipped", payloadHash := none,
               reason := some "no token", message := some "no token" } ∧
      (runSync s reason ts (Except.ok noTokenResult)).1.state = RunState.idle ∧
      (runSync s reason ts (Except.ok noTokenResult)).1.running = false ∧
      (runSync s reason ts (Except.ok noTokenResult)).1.history =
        pushHistory s.historyLimit s.history
          { timestamp := ts, status := "skipped",
            reason := capitalizeReason reason, payloadHash := none,
            skippedReason := some "no token", message := some "no token" } := by
  constructor
  · have hmiss : ¬ (truthyO files.student_course = false ∨
        truthyO files.student_timetable = false ∨
        truthyO files.timetable = false) := by
      simp [hf1, hf2, hf3]
    have htok : resolveToken none login loginEnv cachePath cache =
        Except.ok none := by
      rcases hcred with hc | hc
      · simp [resolveToken, hcache, jsOr, loginForToken, hc]
      · simp [resolveToken, hcache, jsOr, loginForToken, hc]
    rw [uploadTimetable_unfold, if_neg hmiss, htok]
    rfl
  · intro s reason ts
    exact ⟨rfl, rfl, rfl, rfl⟩

/-- Witness for C8 at a concrete unconfigured service. -/
theorem no_token_skip_witness :
    uploadTimetable none { email := none, password := none }
      LoginOutcome.noToken false none allFiles "h0" [] =
      (some (Except.ok noTokenResult), 0) ∧
    (runSync initState "manual trigger" "t0"
      (Except.ok noTokenResult)).1.state = RunState.idle := by
  have h := no_token_skip { email := none, password := none }
    LoginOutcome.noToken false none allFiles "h0" []
    (Or.inl rfl) rfl rfl rfl rfl
  exact ⟨h.1, (h.2 initState "manual trigger" "t0").2.1⟩

/-- C9 (counterexample to the claim as stated): an immediate trigger whose
reason is the empty string starts the pipeline with the fallback reason
"change detected", not with the trigger's reason. -/
theorem immediate_empty_reason_cex :
    (scheduleRun initState "" true).2 =
      [Out.statusEmit, Out.runStarted "change detected"] ∧
    ¬ ("change detected" = "") := by
  exact ⟨rfl, by decide⟩

/-- C9 (amended): an immediate trigger with a nonempty reason cancels any
pending debounce timer and, when no run is in flight, begins the pipeline
at once with that reason; when a run is in flight, the reason is kept as
the pending reason and the re-armed debounce timer re-evaluates it after
the run completes, starting a run with that reason rather than dropping
it. -/
theorem immediate_trigger_behavior (s : S) (reason : String)
    (hp : s.paused = false) (hne : reason ≠ "") :
    (s.running = false →
      scheduleRun s reason true =
        ({ s with pendingReason := none, timer := none, running := true,
                  state := RunState.syncing, currentReason := some reason },
         [Out.statusEmit, Out.runStarted reason])) ∧
    (s.running = true →
      scheduleRun s reason true =
        ({ s with pendingReason := some reason,
                  timer := some s.debounceMs }, []) ∧
      ∀ cr ts oc, s.currentReason = some cr →
        (step (scheduleRun s reason true).1 (Ev.complete ts oc)).1.pendingReason =
          some reason ∧
        (step (step (scheduleRun s reason true).1 (Ev.complete ts oc)).1
            Ev.timerFire).2 = [Out.statusEmit, Out.runStarted reason]) := by
  constructor
  · intro hr
    simp [scheduleRun, processQueue, beginRun, hp, hr, hne]
  · intro hr
    have hsched : scheduleRun s reason true =
        ({ s with pendingReason := some reason,
                  timer := some s.debounceMs }, []) := by
      simp [scheduleRun, processQueue, hp, hr]
    refine ⟨hsched, ?_⟩
    intro cr ts oc hcr
    rw [hsched]
    have hstep : step { s with pendingReason := some reason,
                               timer := some s.debounceMs } (Ev.complete ts oc) =
        finishRun { s with pendingReason := some reason,
                           timer := some s.debounceMs } cr ts oc := by
      simp [step, hcr]
    rw [hstep]
    cases oc with
    | ok u =>
      refine ⟨rfl, ?_⟩
      simp [step, finishRun, processQueue, beginRun, hp, hne]
    | error m =>
      refine ⟨rfl, ?_⟩
      simp [step, finishRun, processQueue, beginRun, hp, hne]

/-- Witness for C9's amended theorem at a concrete in-flight state. -/
theorem immediate_trigger_witness :
    scheduleRun runningState "manual trigger" true =
      ({ runningState with pendingReason := some "manual trigger",
                           timer := some runningState.debounceMs }, []) ∧
    (step (step (scheduleRun runningState "manual trigger" true).1
        (Ev.complete "t0" (Except.ok okUpload))).1 Ev.timerFire).2 =
      [Out.statusEmit, Out.runStarted "manual trigger"] := by
  have h := immediate_trigger_behavior runningState "manual trigger" rfl
    (by decide)
  exact ⟨(h.2 rfl).1,
    ((h.2 rfl).2 "manual trigger" "t0" (Except.ok okUpload) rfl).2⟩

end InnerSync
